import Mathlib

/-!
Shallow embedding of the hezof/log write pipeline: record formatting
(header rendering and calendar-field capture), the record pool, the
file sink with size- and cycle-based rotation, the discard queue, the
backpressure daemon and logger construction, together with theorems
settling the frozen claims about them.
-/

namespace LogModel

/-- Calendar time as captured by the source from the clock: year, numeric
month (1-12), day of month, hour, minute, second and numeric weekday (0-6). -/
structure GoTime where
  year : Nat
  month : Nat
  day : Nat
  hour : Nat
  minute : Nat
  second : Nat
  weekday : Nat
deriving DecidableEq, Repr

/-- Rotation cycle, mirroring the source constants CycleOff = 0,
CycleHourly = 1, CycleDaily = 2, CycleWeekly = 3, CycleMonthly = 4. -/
inductive Cycle where
  | off
  | hourly
  | daily
  | weekly
  | monthly
deriving DecidableEq, Repr

/-- The numeric comparison RotateCycle > CycleOff from the source. -/
def Cycle.gtOff : Cycle → Bool
  | .off => false
  | _ => true

/-- The digits lookup table of the source: digit d is the ASCII character
for d (the source indexes a byte array of the ten digit characters). -/
def digit (d : Nat) : Char := Char.ofNat (48 + d)

/-- Two-digit zero-padded rendering, as the source computes digits[n/10]
followed by digits[n%10]. -/
def twoDigits (n : Nat) : List Char := [digit (n / 10), digit (n % 10)]

/-- The date-time prefix of the header, byte for byte as record.Header
builds it: four year digits via repeated division, datetimeSeparator,
two month digits, datetimeSeparator, two day digits, space, two hour
digits, colon, two minute digits, colon, two second digits, space. -/
def dateTimeChars (t : GoTime) : List Char :=
  [ digit (t.year / 1000),
    digit (t.year % 1000 / 100),
    digit (t.year % 1000 % 100 / 10),
    digit (t.year % 1000 % 100 % 10),
    '-',
    digit (t.month / 10), digit (t.month % 10),
    '-',
    digit (t.day / 10), digit (t.day % 10),
    ' ',
    digit (t.hour / 10), digit (t.hour % 10),
    ':',
    digit (t.minute / 10), digit (t.minute % 10),
    ':',
    digit (t.second / 10), digit (t.second % 10),
    ' ' ]

/-- The level tag appended after the date-time prefix, as the switch in
record.Header writes it: levels 0-3 (LevelDebug, LevelInfo, LevelWarn,
LevelError) get their name and a trailing space with no padding (so INFO
and WARN tags are one byte shorter), and every other level value falls to
the default case which writes the six bytes of a nil marker. -/
def levelChars : Nat → List Char
  | 0 => ['D', 'E', 'B', 'U', 'G', ' ']
  | 1 => ['I', 'N', 'F', 'O', ' ']
  | 2 => ['W', 'A', 'R', 'N', ' ']
  | 3 => ['E', 'R', 'R', 'O', 'R', ' ']
  | _ => ['<', 'n', 'i', 'l', '>', ' ']

/-- The full header bytes record.Header appends to the buffer. -/
def headerChars (level : Nat) (t : GoTime) : List Char :=
  dateTimeChars t ++ levelChars level

/-- A log record: the growable byte buffer plus the calendar fields the
source struct declares (month, week, day, hour, minute). -/
structure Rec where
  buffer : List Char
  month : Nat
  week : Nat
  day : Nat
  hour : Nat
  minute : Nat
deriving DecidableEq, Repr

/-- record.Header: stores hour, day, week and month from the clock value
taken at format time (the source assigns exactly these four fields; the
minute field of the struct is never assigned anywhere in the source) and
appends the rendered header to the buffer. -/
def Rec.applyHeader (r : Rec) (level : Nat) (t : GoTime) : Rec :=
  { r with
    hour := t.hour
    day := t.day
    week := t.weekday
    month := t.month
    buffer := r.buffer ++ headerChars level t }

/-- The rotation suffix now.Format(SuffixFormat) with SuffixFormat equal
to the literal dot followed by the Go layout for zero-padded hour, minute
and second: a dot then six digits. -/
def suffixOf (t : GoTime) : String :=
  "." ++ String.mk (twoDigits t.hour ++ twoDigits t.minute ++ twoDigits t.second)

/-- The mutable sink state of fileLogger that the direct-write path and
rotation touch: the rotation-applicable flag, the configured cycle and
byte threshold, the calendar snapshot of the last rotation (or opening),
the remaining byte budget, the stored filename suffix, and the file
contents: the buffers appended to the active file since the last rollover
and the list of archived (rotated) file contents, one entry per rollover. -/
structure SinkState where
  rotate : Bool
  rotateCycle : Cycle
  rotateBytes : Int
  rotateMonth : Nat
  rotateWeek : Nat
  rotateDay : Nat
  rotateHour : Nat
  rotateRemain : Int
  rotateSuffix : String
  active : List (List Char)
  rotated : List (List (List Char))
deriving DecidableEq, Repr

/-- The calendar mismatch tests of the switch in WriteDirect: monthly
compares the month; weekly adds the weekday; daily adds the day; hourly
adds the hour; the off case has no switch arm. -/
def cycleMismatch (c : Cycle) (r : Rec) (s : SinkState) : Bool :=
  match c with
  | .off => false
  | .monthly => r.month != s.rotateMonth
  | .weekly => r.month != s.rotateMonth || r.week != s.rotateWeek
  | .daily => r.month != s.rotateMonth || r.week != s.rotateWeek || r.day != s.rotateDay
  | .hourly => r.month != s.rotateMonth || r.week != s.rotateWeek || r.day != s.rotateDay
      || r.hour != s.rotateHour

/-- State effect of fileLogger.rotating: the flush, close and rename move
the active contents into a new archive entry unconditionally; reopening
the path can fail (reopenOk = false), in which case the bookkeeping reset
is skipped, otherwise the calendar snapshot, suffix and byte budget are
reset from the clock value now and the configured RotateBytes. -/
def rotatingState (s : SinkState) (now : GoTime) (reopenOk : Bool) : SinkState :=
  let s1 := { s with active := [], rotated := s.rotated ++ [s.active] }
  if reopenOk then
    { s1 with
      rotateMonth := now.month
      rotateWeek := now.weekday
      rotateDay := now.day
      rotateHour := now.hour
      rotateSuffix := suffixOf now
      rotateRemain := s.rotateBytes }
  else s1

/-- Diagnostic line of rotating when reopening the path fails. -/
def rotatingDiag (reopenOk : Bool) : List String :=
  if reopenOk then [] else ["logger open file error"]

/-- Outcome of one WriteDirect call: whether records.Put was invoked (the
deferred release), the error surfaced to the caller (the source function
returns nothing, so always none), the diagnostics printed to the side
stream, and which rotation trigger fired. -/
structure WriteOutcome where
  putCalled : Bool
  callerError : Option String
  diagnostics : List String
  calRotated : Bool
  sizeRotated : Bool
deriving DecidableEq, Repr

/-- Tail of WriteDirect after the rotation checks: the buffered write of
r.buffer (appended to the active file when the writer succeeds, writeErr
none), the report of a write failure to the side stream, and the deferred
records.Put which runs on every path. -/
def finishWrite (s : SinkState) (r : Rec) (writeErr : Option String)
    (cal : Bool) (sz : Bool) (dg : List String) : SinkState × WriteOutcome :=
  match writeErr with
  | none =>
      ({ s with active := s.active ++ [r.buffer] },
       { putCalled := true, callerError := none, diagnostics := dg,
         calRotated := cal, sizeRotated := sz })
  | some e =>
      (s,
       { putCalled := true, callerError := none,
         diagnostics := dg ++ ["logger write error: " ++ e],
         calRotated := cal, sizeRotated := sz })

/-- fileLogger.WriteDirect: under the mutex, when rotation applies and a
cycle is configured, the switch compares the record's stored calendar
fields with the snapshot and on mismatch rotates and jumps straight to
the write; otherwise, when RotateBytes is positive, the remaining budget
is decremented by the buffer length and a negative result rotates before
the write; finally the buffer is appended and the record released. -/
def writeDirect (s : SinkState) (r : Rec) (now : GoTime) (reopenOk : Bool)
    (writeErr : Option String) : SinkState × WriteOutcome :=
  if s.rotate && s.rotateCycle.gtOff && cycleMismatch s.rotateCycle r s then
    finishWrite (rotatingState s now reopenOk) r writeErr true false (rotatingDiag reopenOk)
  else if s.rotate && decide ((0 : Int) < s.rotateBytes) then
    let remain := s.rotateRemain - (r.buffer.length : Int)
    if remain < 0 then
      finishWrite (rotatingState { s with rotateRemain := remain } now reopenOk)
        r writeErr false true (rotatingDiag reopenOk)
    else
      finishWrite { s with rotateRemain := remain } r writeErr false false []
  else
    finishWrite s r writeErr false false []

/-- The collision loop of fileLogger.rotating: starting from count, try
base plus a dot plus the decimal count and increment while the name
exists; fuel bounds the search so the function is total (the source loop
runs until a free name is found). -/
def findFreeName (ex : String → Bool) (base : String) : Nat → Nat → String
  | 0, count => base ++ "." ++ toString count
  | fuel + 1, count =>
    let candidate := base ++ "." ++ toString count
    if ex candidate then findFreeName ex base fuel (count + 1) else candidate

/-- The rotated-file name computed by fileLogger.rotating: the configured
path, a dot, and the stored suffix; when that name already exists the
collision loop appends a dot and the first free counter starting at 0.
The predicate ex abstracts os.Stat existence on the filesystem at
rotation time. -/
def rotatedName (ex : String → Bool) (fuel : Nat) (path suffix : String) : String :=
  let rotateFile := path ++ "." ++ suffix
  if ex rotateFile then findFreeName ex rotateFile fuel 0 else rotateFile

/-- A pooled record viewed through its buffer: logical length and
retained capacity, the two quantities records.Get and records.Put
inspect. -/
structure PRec where
  len : Nat
  cap : Nat
deriving DecidableEq, Repr

/-- The records pool: the per-record starting capacity handed out by the
sync.Pool New function, the retention threshold recordBytes times
recordFactor computed by createRecords, and the retained records. -/
structure RecordsPool where
  recordBytes : Nat
  threshold : Nat
  pool : List PRec
deriving DecidableEq, Repr

/-- createRecords: empty pool with threshold recordBytes * recordFactor
and fresh records of capacity recordBytes. -/
def createRecords (recordBytes recordFactor : Nat) : RecordsPool :=
  { recordBytes := recordBytes, threshold := recordBytes * recordFactor, pool := [] }

/-- records.Get: take a retained record if one exists, otherwise a fresh
one of the configured starting capacity; either way the buffer is
truncated to length zero (buffer[0:0]) while its capacity is kept. -/
def RecordsPool.get (rs : RecordsPool) : PRec × RecordsPool :=
  match rs.pool with
  | [] => ({ len := 0, cap := rs.recordBytes }, rs)
  | r :: rest => ({ r with len := 0 }, { rs with pool := rest })

/-- records.Put: retain the record only when its buffer capacity is
strictly below the threshold, otherwise drop it. -/
def RecordsPool.put (rs : RecordsPool) (r : PRec) : RecordsPool :=
  if r.cap < rs.threshold then { rs with pool := r :: rs.pool } else rs

/-- One pool operation of a usage trace. -/
inductive PoolOp where
  | get : PoolOp
  | put : PRec → PoolOp
deriving DecidableEq, Repr

/-- Run a trace of pool operations, discarding the records Get returns. -/
def runOps (rs : RecordsPool) : List PoolOp → RecordsPool
  | [] => rs
  | PoolOp.get :: rest => runOps (rs.get).2 rest
  | PoolOp.put r :: rest => runOps (rs.put r) rest

/-- The bounded discard channel of the async path: its capacity (the
configured DiscardThreshold) and the buffered records. -/
structure DiscardQueue where
  cap : Nat
  queue : List Rec
deriving DecidableEq, Repr

/-- Outcome of one WriteDiscard call: whether the record was enqueued,
whether records.Put was invoked (never, in either branch of the source
select), and the error surfaced to the caller (none: the function returns
nothing and the default case silently drops). -/
structure DiscardOutcome where
  enqueued : Bool
  putCalled : Bool
  callerError : Option String
deriving DecidableEq, Repr

/-- fileLogger.WriteDiscard: the non-blocking select on the buffered
channel; the send succeeds when the buffer has room, otherwise the
default case drops the record immediately. The function is total, so the
caller is never blocked in either case. -/
def writeDiscard (q : DiscardQueue) (r : Rec) : DiscardQueue × DiscardOutcome :=
  if q.queue.length < q.cap then
    ({ q with queue := q.queue ++ [r] },
     { enqueued := true, putCalled := false, callerError := none })
  else
    (q, { enqueued := false, putCalled := false, callerError := none })

/-- One event observed by the select inside protectDaemon: a record
received from the discard channel, a receive on the closed channel, a
ticker expiry, or a fault raising a panic during the iteration. -/
inductive DEvent where
  | recv : DEvent
  | closedQ : DEvent
  | tick : DEvent
  | panicEv : String → DEvent
deriving DecidableEq, Repr

/-- How one call of protectDaemon ends: done models returning
os.ErrProcessDone on the closed-channel receive; recovered models the
deferred recover catching a panic (the function then returns a nil
error); pending models the loop still blocked in its select when the
event sequence runs out. -/
inductive IterExit where
  | done : IterExit
  | recovered : String → IterExit
  | pending : IterExit
deriving DecidableEq, Repr

/-- fileLogger.protectDaemon over a sequence of select events: records
are drained through WriteDirect and ticks trigger Flush (both continue
the loop), a closed-channel receive returns ErrProcessDone, and a panic
is recovered and reported to the side stream. -/
def protectDaemonRun : List DEvent → IterExit × List String
  | [] => (IterExit.pending, [])
  | DEvent.recv :: rest => protectDaemonRun rest
  | DEvent.tick :: rest => protectDaemonRun rest
  | DEvent.closedQ :: _ => (IterExit.done, [])
  | DEvent.panicEv m :: _ => (IterExit.recovered m, ["daemon panic: " ++ m])

/-- Whether a closed-channel receive is reached before any panic in the
event sequence. -/
def closedBeforePanic : List DEvent → Bool
  | [] => false
  | DEvent.recv :: rest => closedBeforePanic rest
  | DEvent.tick :: rest => closedBeforePanic rest
  | DEvent.closedQ :: _ => true
  | DEvent.panicEv _ :: _ => false

/-- fileLogger.daemon over a list of iterations (each an event sequence
for one protectDaemon call): the loop returns exactly when protectDaemon
returns ErrProcessDone; any other result is reported as a daemon error
and the loop restarts with the next iteration. The Bool records whether
the daemon returned; the list collects the side-stream diagnostics. -/
def daemonRun : List (List DEvent) → Bool × List String
  | [] => (false, [])
  | evts :: rest =>
    let p := protectDaemonRun evts
    match p.1 with
    | IterExit.done => (true, p.2)
    | IterExit.recovered _ =>
        let q := daemonRun rest
        (q.1, p.2 ++ ("daemon error: <nil>" :: q.2))
    | IterExit.pending => (false, p.2)

/-- The destination identifier constant for the standard output stream. -/
def STDOUT : String := "stdout"

/-- The destination identifier constant for the standard error stream. -/
def STDERR : String := "stderr"

/-- The configuration struct FileConfig; durations in nanoseconds as Go
stores them, integer fields as Int mirroring int and int64, the level as
its numeric value. -/
structure FileConfig where
  file : String
  level : Nat
  rotateBytes : Int
  rotateCycle : Cycle
  bufferLength : Int
  bufferPeriod : Int
  recordLength : Int
  recordFactor : Int
  discardThreshold : Int
deriving DecidableEq, Repr

/-- The zero value of FileConfig, as new(FileConfig) produces. -/
def zeroConfig : FileConfig :=
  { file := "", level := 0, rotateBytes := 0, rotateCycle := Cycle.off,
    bufferLength := 0, bufferPeriod := 0, recordLength := 0, recordFactor := 0,
    discardThreshold := 0 }

/-- Default write-buffer size (256K). -/
def defaultBufferLength : Int := 256 * 1024

/-- Default flush period (15s in nanoseconds). -/
def defaultBufferPeriod : Int := 15 * 1000000000

/-- Default record buffer size (2K). -/
def defaultRecordLength : Int := 2048

/-- Default record retention factor. -/
def defaultRecordFactor : Int := 10

/-- The field-defaulting body of mergeDefault, applied after the nil
check: empty file becomes stdout, non-positive sizes and periods get
their defaults. -/
def mergeDefaultFields (fs : FileConfig) : FileConfig :=
  let fs := if fs.file = "" then { fs with file := STDOUT } else fs
  let fs := if fs.bufferLength ≤ 0 then { fs with bufferLength := defaultBufferLength } else fs
  let fs := if fs.bufferPeriod ≤ 0 then { fs with bufferPeriod := defaultBufferPeriod } else fs
  let fs := if fs.recordLength ≤ 0 then { fs with recordLength := defaultRecordLength } else fs
  let fs := if fs.recordFactor ≤ 0 then { fs with recordFactor := defaultRecordFactor } else fs
  fs

/-- mergeDefault: a nil pointer is replaced by the zero config (the Bool
records that this nil branch ran), then the defaults are applied. -/
def mergeDefault : Option FileConfig → FileConfig × Bool
  | none => (mergeDefaultFields zeroConfig, true)
  | some fs => (mergeDefaultFields fs, false)

/-- The destination ToFile resolves: one of the two standard streams or a
file opened at a path. -/
inductive FileDest where
  | stdoutD : FileDest
  | stderrD : FileDest
  | fileD : String → FileDest
deriving DecidableEq, Repr

/-- ToFile: a case-insensitive match on the standard stream identifiers,
otherwise an append-mode open of the path, which can fail; openOk
abstracts whether the operating system open succeeds. -/
def toFile (openOk : String → Bool) (path : String) : Except String FileDest :=
  if path.toLower = STDOUT then Except.ok FileDest.stdoutD
  else if path.toLower = STDERR then Except.ok FileDest.stderrD
  else if openOk path then Except.ok (FileDest.fileD path)
  else Except.error ("open file error: " ++ path)

/-- Result of a Go function run: a value, a returned error, or a runtime
panic. -/
inductive GoOutcome (α : Type) where
  | ok : α → GoOutcome α
  | err : String → GoOutcome α
  | panicked : String → GoOutcome α
deriving DecidableEq, Repr

/-- The runtime fault message of a nil pointer dereference. -/
def nilDerefMsg : String := "invalid memory address or nil pointer dereference"

/-- The logger state NewFileLogger constructs: the merged configuration,
the level and discard settings read from the raw argument, the rotation
bookkeeping initialised from the clock when rotation applies, and which
write entry point was installed. -/
structure BuiltLogger where
  merged : FileConfig
  level : Nat
  rotate : Bool
  rotateMonth : Nat
  rotateWeek : Nat
  rotateDay : Nat
  rotateHour : Nat
  rotateRemain : Int
  rotateSuffix : String
  usesDiscard : Bool
  discardCap : Int
deriving DecidableEq, Repr

/-- NewFileLogger: the very first statement reads c.File from the raw
configuration pointer, so a nil pointer faults before mergeDefault is
ever reached; with a non-nil pointer the destination is opened (failures
are returned to the caller), the defaults are merged, rotation applies
only to non-standard-stream destinations with a positive byte threshold
or cycle, and the raw c.Level and c.DiscardThreshold pick the level and
the write entry point. -/
def NewFileLogger (openOk : String → Bool) (now : GoTime)
    (c : Option FileConfig) : GoOutcome BuiltLogger :=
  match c with
  | none => GoOutcome.panicked nilDerefMsg
  | some cfg =>
    match toFile openOk cfg.file with
    | Except.error e => GoOutcome.err e
    | Except.ok dest =>
      let merged := (mergeDefault (some cfg)).1
      let isStd := dest = FileDest.stdoutD ∨ dest = FileDest.stderrD
      let rotate := !(decide isStd)
        && (decide ((0 : Int) < merged.rotateBytes) || merged.rotateCycle.gtOff)
      GoOutcome.ok
        { merged := merged
          level := cfg.level
          rotate := rotate
          rotateMonth := if rotate then now.month else 0
          rotateWeek := if rotate then now.weekday else 0
          rotateDay := if rotate then now.day else 0
          rotateHour := if rotate then now.hour else 0
          rotateRemain := if rotate then merged.rotateBytes else 0
          rotateSuffix := if rotate then suffixOf now else ""
          usesDiscard := decide ((0 : Int) < cfg.discardThreshold)
          discardCap := cfg.discardThreshold }

/-- A 30-byte record for the concrete rotation scenario: thirty copies of
a letter determined by the index, with fixed calendar fields. -/
def c1Rec (i : Nat) : Rec :=
  { buffer := List.replicate 30 (Char.ofNat (65 + i)),
    month := 1, week := 1, day := 2, hour := 3, minute := 4 }

/-- Clock value used by rotations in the concrete scenario (irrelevant to
the size-only decision). -/
def c1Now : GoTime :=
  { year := 2024, month := 1, day := 2, hour := 3, minute := 4, second := 5, weekday := 1 }

/-- The sink as NewFileLogger initialises it for a file destination with
RotateBytes = 100 and no cycle: budget 100, empty active file, no
archives. -/
def c1Init : SinkState :=
  { rotate := true, rotateCycle := Cycle.off, rotateBytes := 100,
    rotateMonth := 1, rotateWeek := 1, rotateDay := 2, rotateHour := 3,
    rotateRemain := 100, rotateSuffix := ".030405", active := [], rotated := [] }

/-- One scenario step: a direct write of the indexed record, collecting
the outcome. -/
def c1Step (p : SinkState × List WriteOutcome) (i : Nat) : SinkState × List WriteOutcome :=
  let q := writeDirect p.1 (c1Rec i) c1Now true none
  (q.1, p.2 ++ [q.2])

/-- The scenario run: five direct writes of 30 bytes each against the
RotateBytes = 100 sink. -/
def c1Run : SinkState × List WriteOutcome :=
  [0, 1, 2, 3, 4].foldl c1Step (c1Init, [])

/-- Claim-side digit rendering for the header refinement, built from the
library digit character function rather than the ASCII table of the
source. -/
def specPad2 (n : Nat) : List Char := [Nat.digitChar (n / 10), Nat.digitChar (n % 10)]

/-- Claim-side four-digit year rendering for the header refinement. -/
def specPad4 (n : Nat) : List Char :=
  [Nat.digitChar (n / 1000), Nat.digitChar (n / 100 % 10),
   Nat.digitChar (n / 10 % 10), Nat.digitChar (n % 10)]

/-- Claim-side date-time prefix, following the spec words: the form
YYYY-MM-DD HH:MM:SS followed by one space. -/
def specHeaderPrefix (t : GoTime) : List Char :=
  specPad4 t.year ++ '-' :: specPad2 t.month ++ '-' :: specPad2 t.day
    ++ ' ' :: specPad2 t.hour ++ ':' :: specPad2 t.minute ++ ':' :: specPad2 t.second
    ++ [' ']

theorem finishWrite_putCalled (s : SinkState) (r : Rec) (e : Option String)
    (c z : Bool) (d : List String) : (finishWrite s r e c z d).2.putCalled = true := by
  cases e <;> rfl

theorem finishWrite_callerError (s : SinkState) (r : Rec) (e : Option String)
    (c z : Bool) (d : List String) : (finishWrite s r e c z d).2.callerError = none := by
  cases e <;> rfl

theorem finishWrite_calRotated (s : SinkState) (r : Rec) (e : Option String)
    (c z : Bool) (d : List String) : (finishWrite s r e c z d).2.calRotated = c := by
  cases e <;> rfl

theorem finishWrite_outcome_state (s1 s2 : SinkState) (r : Rec) (e : Option String)
    (c z : Bool) (d : List String) :
    (finishWrite s1 r e c z d).2 = (finishWrite s2 r e c z d).2 := by
  cases e <;> rfl

theorem finishWrite_diag_mem (s : SinkState) (r : Rec) (msg : String)
    (c z : Bool) (d : List String) :
    ("logger write error: " ++ msg) ∈ (finishWrite s r (some msg) c z d).2.diagnostics := by
  simp [finishWrite]

theorem writeDirect_calRotated (s : SinkState) (r : Rec) (now : GoTime) (ro : Bool)
    (e : Option String) :
    (writeDirect s r now ro e).2.calRotated
      = (s.rotate && s.rotateCycle.gtOff && cycleMismatch s.rotateCycle r s) := by
  simp only [writeDirect]
  split_ifs with h1 h2 h3 <;>
    simp_all [finishWrite_calRotated]

theorem writeDirect_outcome_now (s : SinkState) (r : Rec) (n1 n2 : GoTime) (ro : Bool)
    (e : Option String) :
    (writeDirect s r n1 ro e).2 = (writeDirect s r n2 ro e).2 := by
  simp only [writeDirect]
  split_ifs <;> first
    | rfl
    | exact finishWrite_outcome_state ..

/-- C1: the claim is false on the code: with RotateBytes = 100 and five
direct writes of 30 bytes, the rollover triggered by the 4th record
happens before that record is appended, so the rotated file does not
contain the first four records and the active file does not contain only
the fifth. -/
theorem c1_size_rotation_counterexample :
    ¬ (c1Run.1.rotated
        = [[(c1Rec 0).buffer, (c1Rec 1).buffer, (c1Rec 2).buffer, (c1Rec 3).buffer]]
       ∧ c1Run.1.active = [(c1Rec 4).buffer]) := by
  decide

/-- C1 amended: with RotateBytes = 100 and five direct writes of 30 bytes
each, exactly one rollover occurs, triggered by the 4th record (cumulative
120 > 100) and performed before that record is appended; the rotated file
contains the first three records' bytes, the active file contains the
fourth and fifth records' bytes, and the byte budget after the run is 70
(reset to 100 at the rollover and charged only for the fifth record). -/
theorem c1_size_rotation_amended :
    c1Run.1.rotated = [[(c1Rec 0).buffer, (c1Rec 1).buffer, (c1Rec 2).buffer]]
    ∧ c1Run.1.active = [(c1Rec 3).buffer, (c1Rec 4).buffer]
    ∧ c1Run.2.map (fun o => o.calRotated || o.sizeRotated)
        = [false, false, false, true, false]
    ∧ c1Run.1.rotateRemain = 70 := by
  decide

theorem findFreeName_spec (ex : String → Bool) (base : String) :
    ∀ (fuel count n : Nat),
      (∀ j, j < n → ex (base ++ "." ++ toString (count + j)) = true) →
      ex (base ++ "." ++ toString (count + n)) = false →
      n < fuel →
      findFreeName ex base fuel count = base ++ "." ++ toString (count + n) := by
  intro fuel
  induction fuel with
  | zero => intro count n _ _ h3; omega
  | succ fuel ih =>
    intro count n h1 h2 h3
    cases n with
    | zero =>
      have h0 : ex (base ++ "." ++ toString count) = false := by
        simpa using h2
      simp [findFreeName, h0]
    | succ n =>
      have h0 : ex (base ++ "." ++ toString count) = true := by
        simpa using h1 0 (Nat.succ_pos n)
      have h1a : ∀ j, j < n → ex (base ++ "." ++ toString (count + 1 + j)) = true := by
        intro j hj
        have := h1 (j + 1) (by omega)
        rwa [show count + (j + 1) = count + 1 + j by omega] at this
      have h2a : ex (base ++ "." ++ toString (count + 1 + n)) = false := by
        rwa [show count + (n + 1) = count + 1 + n by omega] at h2
      have hrec := ih (count + 1) n h1a h2a (by omega)
      rw [show count + (n + 1) = count + 1 + n by omega]
      simpa [findFreeName, h0] using hrec

/-- C2: the claim is false on the code: the stored suffix produced by
formatting SuffixFormat already begins with a dot, and rotating inserts a
second dot between the path and the suffix, so at clock 03:04:05 with no
colliding file the rotated name for path app.log is app.log..030405, not
the claimed app.log.030405 with a single dot. -/
theorem c2_rotated_name_counterexample :
    rotatedName (fun _ => false) 10 "app.log" (suffixOf c1Now) = "app.log..030405"
    ∧ "app.log..030405" ≠ "app.log.030405" := by
  constructor
  · rfl
  · decide

/-- C2 amended: the rotated name is the configured path, a dot, and the
stored suffix, which itself begins with a dot followed by the six HHMMSS
digits, so the name on disk is path..HHMMSS (two dots); when that name
already exists, a dot and the smallest non-negative integer making the
name not exist are appended. -/
theorem c2_rotated_name_amended (ex : String → Bool) (fuel : Nat)
    (path suffix : String) (n : Nat) :
    (ex (path ++ "." ++ suffix) = false →
      rotatedName ex fuel path suffix = path ++ "." ++ suffix)
    ∧ (ex (path ++ "." ++ suffix) = true →
       (∀ k, k < n → ex (path ++ "." ++ suffix ++ "." ++ toString k) = true) →
       ex (path ++ "." ++ suffix ++ "." ++ toString n) = false →
       n < fuel →
       rotatedName ex fuel path suffix = path ++ "." ++ suffix ++ "." ++ toString n)
    ∧ (∀ (t : GoTime) (p : String),
        (p ++ "." ++ suffixOf t).data
          = p.data ++ '.' :: '.' ::
              (twoDigits t.hour ++ twoDigits t.minute ++ twoDigits t.second)) := by
  refine ⟨?_, ?_, ?_⟩
  · intro h
    simp [rotatedName, h]
  · intro h hall hfree hfuel
    have := findFreeName_spec ex (path ++ "." ++ suffix) fuel 0 n
      (by intro j hj; simpa using hall j hj) (by simpa using hfree) hfuel
    simpa [rotatedName, h] using this
  · intro t p
    simp [suffixOf]

/-- C2 witness: with path a, stored suffix .120000 and the names a..120000
and a..120000.0 both existing, rotation picks a..120000.1. -/
theorem c2_rotated_name_witness :
    rotatedName (fun s => s == "a..120000" || s == "a..120000.0") 10 "a" ".120000"
      = "a" ++ "." ++ ".120000" ++ "." ++ toString 1 :=
  (c2_rotated_name_amended (fun s => s == "a..120000" || s == "a..120000.0")
      10 "a" ".120000" 1).2.1 (by decide) (by decide) (by decide) (by decide)

/-- C3: for every direct write with rotation applicable, the calendar
rollover decision is exactly the cumulative comparison of the record's
stored calendar fields against the sink's snapshot: monthly on month
change, weekly on month-or-weekday change, daily on
month-or-weekday-or-day change, hourly on month-or-weekday-or-day-or-hour
change, and no calendar rollover occurs when the compared fields all
agree. -/
theorem write_direct_cycle_c3 (s : SinkState) (r : Rec) (now : GoTime) (ro : Bool)
    (e : Option String) (hrot : s.rotate = true) :
    (s.rotateCycle = Cycle.monthly →
      (writeDirect s r now ro e).2.calRotated = (r.month != s.rotateMonth))
    ∧ (s.rotateCycle = Cycle.weekly →
      (writeDirect s r now ro e).2.calRotated
        = (r.month != s.rotateMonth || r.week != s.rotateWeek))
    ∧ (s.rotateCycle = Cycle.daily →
      (writeDirect s r now ro e).2.calRotated
        = (r.month != s.rotateMonth || r.week != s.rotateWeek || r.day != s.rotateDay))
    ∧ (s.rotateCycle = Cycle.hourly →
      (writeDirect s r now ro e).2.calRotated
        = (r.month != s.rotateMonth || r.week != s.rotateWeek || r.day != s.rotateDay
            || r.hour != s.rotateHour))
    ∧ (cycleMismatch s.rotateCycle r s = false →
      (writeDirect s r now ro e).2.calRotated = false) := by
  refine ⟨fun hc => ?_, fun hc => ?_, fun hc => ?_, fun hc => ?_, fun hc => ?_⟩ <;>
    rw [writeDirect_calRotated, hrot]
  · rw [hc]; simp [Cycle.gtOff, cycleMismatch]
  · rw [hc]; simp [Cycle.gtOff, cycleMismatch]
  · rw [hc]; simp [Cycle.gtOff, cycleMismatch]
  · rw [hc]; simp [Cycle.gtOff, cycleMismatch]
  · simp [hc]

/-- C3 witness: a daily sink whose snapshot day differs from the record's
captured day rotates on that write. -/
theorem write_direct_cycle_c3_witness :
    (writeDirect
        { c1Init with rotateCycle := Cycle.daily, rotateDay := 9 }
        (c1Rec 0) c1Now true none).2.calRotated
      = ((c1Rec 0).month != c1Init.rotateMonth
          || (c1Rec 0).week != c1Init.rotateWeek
          || (c1Rec 0).day != (9 : Nat)) :=
  (write_direct_cycle_c3
      { c1Init with rotateCycle := Cycle.daily, rotateDay := 9 }
      (c1Rec 0) c1Now true none (by decide)).2.2.1 (by decide)

theorem digit_eq_digitChar (d : Nat) (h : d < 10) : digit d = Nat.digitChar d := by
  interval_cases d <;> decide

/-- C4: the claim is false on the code: at the same timestamp the INFO
header is 25 bytes while the DEBUG header is 26 bytes, so the level tags
are not padded and the columns after the level do not align across
levels. -/
theorem header_format_c4_counterexample :
    (headerChars 1 c1Now).length ≠ (headerChars 0 c1Now).length := by
  decide

/-- C4 amended: every rendered entry begins with a header of the form
YYYY-MM-DD HH:MM:SS followed by the level tag and a space, where the tag
is written without padding (DEBUG and ERROR headers are 26 bytes, INFO
and WARN headers 25 bytes, so the columns do not align), FATAL is never
rendered for any level value, levels outside 0-3 render a nil marker,
and the off pseudo-level has no rendering of its own. -/
theorem header_format_c4 (lvl : Nat) (t : GoTime)
    (hy : t.year < 10000) (hm : t.month < 100) (hd : t.day < 100)
    (hh : t.hour < 100) (hmi : t.minute < 100) (hs : t.second < 100) :
    headerChars lvl t = specHeaderPrefix t ++ levelChars lvl
    ∧ (∀ l : Nat, levelChars l ≠ ['F', 'A', 'T', 'A', 'L', ' '])
    ∧ (headerChars 0 t).length = 26 ∧ (headerChars 1 t).length = 25
    ∧ (headerChars 2 t).length = 25 ∧ (headerChars 3 t).length = 26 := by
  refine ⟨?_, ?_, rfl, rfl, rfl, rfl⟩
  · unfold headerChars
    congr 1
    have e0 : digit (t.year / 1000) = Nat.digitChar (t.year / 1000) :=
      digit_eq_digitChar _ (by omega)
    have e1 : digit (t.year % 1000 / 100) = Nat.digitChar (t.year / 100 % 10) := by
      rw [show t.year % 1000 / 100 = t.year / 100 % 10 by omega]
      exact digit_eq_digitChar _ (by omega)
    have e2 : digit (t.year % 1000 % 100 / 10) = Nat.digitChar (t.year / 10 % 10) := by
      rw [show t.year % 1000 % 100 / 10 = t.year / 10 % 10 by omega]
      exact digit_eq_digitChar _ (by omega)
    have e3 : digit (t.year % 1000 % 100 % 10) = Nat.digitChar (t.year % 10) := by
      rw [show t.year % 1000 % 100 % 10 = t.year % 10 by omega]
      exact digit_eq_digitChar _ (by omega)
    simp [dateTimeChars, specHeaderPrefix, specPad4, specPad2, e0, e1, e2, e3,
      digit_eq_digitChar _ (show t.month / 10 < 10 by omega),
      digit_eq_digitChar _ (show t.month % 10 < 10 by omega),
      digit_eq_digitChar _ (show t.day / 10 < 10 by omega),
      digit_eq_digitChar _ (show t.day % 10 < 10 by omega),
      digit_eq_digitChar _ (show t.hour / 10 < 10 by omega),
      digit_eq_digitChar _ (show t.hour % 10 < 10 by omega),
      digit_eq_digitChar _ (show t.minute / 10 < 10 by omega),
      digit_eq_digitChar _ (show t.minute % 10 < 10 by omega),
      digit_eq_digitChar _ (show t.second / 10 < 10 by omega),
      digit_eq_digitChar _ (show t.second % 10 < 10 by omega)]
  · intro l
    match l with
    | 0 => decide
    | 1 => decide
    | 2 => decide
    | 3 => decide
    | l + 4 => simp [levelChars]

/-- C4 witness: the amended header equation instantiated at the ERROR
level and the scenario clock. -/
theorem header_format_c4_witness :
    headerChars 3 c1Now = specHeaderPrefix c1Now ++ levelChars 3 :=
  (header_format_c4 3 c1Now (by decide) (by decide) (by decide) (by decide)
      (by decide) (by decide)).1

/-- A record with a sentinel minute value, used to observe that
record.Header never assigns the minute field. -/
def c5Rec : Rec :=
  { buffer := [], month := 9, week := 9, day := 9, hour := 9, minute := 7 }

/-- C5: the claim is false on the code: the minute field of the record is
never assigned by record.Header (or anywhere else), so after rendering a
header at a clock whose minute is 4 the record still carries its previous
minute value 7; only month, weekday, day and hour are captured. -/
theorem header_capture_c5_counterexample :
    (c5Rec.applyHeader 0 c1Now).minute ≠ c1Now.minute := by
  decide

/-- C5 amended: the four calendar fields month, weekday, day-of-month and
hour are captured from the timestamp taken at format time and stored on
the record (the declared minute field is left unassigned), and the
write-time cycle-rotation decision reads only the stored fields: the
whole write outcome is unchanged under any change of the clock value
observed at write time. -/
theorem header_capture_c5 (r : Rec) (lvl : Nat) (t : GoTime) (s : SinkState)
    (n1 n2 : GoTime) (ro : Bool) (e : Option String) :
    (r.applyHeader lvl t).month = t.month
    ∧ (r.applyHeader lvl t).week = t.weekday
    ∧ (r.applyHeader lvl t).day = t.day
    ∧ (r.applyHeader lvl t).hour = t.hour
    ∧ (r.applyHeader lvl t).minute = r.minute
    ∧ (writeDirect s (r.applyHeader lvl t) n1 ro e).2
        = (writeDirect s (r.applyHeader lvl t) n2 ro e).2 :=
  ⟨rfl, rfl, rfl, rfl, rfl, writeDirect_outcome_now ..⟩

/-- C6: the discardable write path never blocks, never surfaces an error
to its caller and never calls records.Put: when the bounded queue is full
the record is dropped with the queue unchanged, and when the queue has
room the record is appended to it; moreover NewFileLogger installs the
discard path with capacity DiscardThreshold exactly when that threshold
is positive. -/
theorem write_discard_c6 (q : DiscardQueue) (r : Rec) :
    (q.cap ≤ q.queue.length →
      (writeDiscard q r).1 = q
      ∧ (writeDiscard q r).2.enqueued = false
      ∧ (writeDiscard q r).2.putCalled = false
      ∧ (writeDiscard q r).2.callerError = none)
    ∧ (q.queue.length < q.cap →
      (writeDiscard q r).1.queue = q.queue ++ [r]
      ∧ (writeDiscard q r).2.enqueued = true
      ∧ (writeDiscard q r).2.putCalled = false
      ∧ (writeDiscard q r).2.callerError = none)
    ∧ (∀ (openOk : String → Bool) (now : GoTime) (cfg : FileConfig) (st : BuiltLogger),
        NewFileLogger openOk now (some cfg) = GoOutcome.ok st →
        st.usesDiscard = decide ((0 : Int) < cfg.discardThreshold)
        ∧ st.discardCap = cfg.discardThreshold) := by
  refine ⟨fun h => ?_, fun h => ?_, fun openOk now cfg st hok => ?_⟩
  · have hfull : ¬ q.queue.length < q.cap := by omega
    simp [writeDiscard, hfull]
  · simp [writeDiscard, h]
  · cases htf : toFile openOk cfg.file with
    | error e =>
      simp only [NewFileLogger, htf] at hok
      exact GoOutcome.noConfusion hok
    | ok dest =>
      simp only [NewFileLogger, htf] at hok
      cases hok
      exact ⟨rfl, rfl⟩

/-- C6 witness: a full queue of capacity one drops the write and leaves
the queue unchanged, and the constructor facts hold at a concrete
discard-enabled configuration. -/
theorem write_discard_c6_witness :
    (writeDiscard { cap := 1, queue := [c1Rec 0] } (c1Rec 1)).1
        = { cap := 1, queue := [c1Rec 0] }
    ∧ (writeDiscard { cap := 1, queue := [c1Rec 0] } (c1Rec 1)).2.enqueued = false
    ∧ (writeDiscard { cap := 1, queue := [c1Rec 0] } (c1Rec 1)).2.putCalled = false
    ∧ (writeDiscard { cap := 1, queue := [c1Rec 0] } (c1Rec 1)).2.callerError = none :=
  (write_discard_c6 { cap := 1, queue := [c1Rec 0] } (c1Rec 1)).1 (by decide)

/-- C7: on every direct write the record is released back to the pool
(the deferred records.Put runs on the success path, on the write-error
path and on every rollover path), no error is surfaced to the caller,
and a failed append is reported on the side diagnostic stream. -/
theorem write_direct_release_c7 (s : SinkState) (r : Rec) (now : GoTime) (ro : Bool)
    (e : Option String) :
    (writeDirect s r now ro e).2.putCalled = true
    ∧ (writeDirect s r now ro e).2.callerError = none
    ∧ (∀ msg, e = some msg →
        ("logger write error: " ++ msg) ∈ (writeDirect s r now ro e).2.diagnostics) := by
  refine ⟨?_, ?_, fun msg hmsg => ?_⟩
  · simp only [writeDirect]
    split_ifs <;> exact finishWrite_putCalled ..
  · simp only [writeDirect]
    split_ifs <;> exact finishWrite_callerError ..
  · subst hmsg
    simp only [writeDirect]
    split_ifs <;> exact finishWrite_diag_mem ..

/-- C7 witness: a failing append during a size rollover still reports the
error to the side stream, and the record release and silent caller return
hold at the same concrete input. -/
theorem write_direct_release_c7_witness :
    (writeDirect c1Init (c1Rec 0) c1Now true (some "disk full")).2.putCalled = true
    ∧ ("logger write error: " ++ "disk full")
        ∈ (writeDirect c1Init (c1Rec 0) c1Now true (some "disk full")).2.diagnostics :=
  ⟨(write_direct_release_c7 c1Init (c1Rec 0) c1Now true (some "disk full")).1,
   (write_direct_release_c7 c1Init (c1Rec 0) c1Now true (some "disk full")).2.2
      "disk full" rfl⟩

theorem put_threshold (rs : RecordsPool) (r : PRec) :
    (rs.put r).threshold = rs.threshold := by
  unfold RecordsPool.put
  split <;> rfl

theorem put_recordBytes (rs : RecordsPool) (r : PRec) :
    (rs.put r).recordBytes = rs.recordBytes := by
  unfold RecordsPool.put
  split <;> rfl

theorem get_threshold (rs : RecordsPool) : ((rs.get).2).threshold = rs.threshold := by
  rcases rs with ⟨b, th, pool⟩
  cases pool <;> rfl

theorem get_recordBytes (rs : RecordsPool) : ((rs.get).2).recordBytes = rs.recordBytes := by
  rcases rs with ⟨b, th, pool⟩
  cases pool <;> rfl

theorem get_pool_subset (rs : RecordsPool) (p : PRec) (hp : p ∈ ((rs.get).2).pool) :
    p ∈ rs.pool := by
  rcases rs with ⟨b, th, pool⟩
  cases pool with
  | nil => exact hp
  | cons a as => exact List.mem_cons_of_mem a hp

theorem get_cap_cases (rs : RecordsPool) :
    (rs.get).1.cap = rs.recordBytes ∨ ∃ p ∈ rs.pool, (rs.get).1.cap = p.cap := by
  rcases rs with ⟨b, th, pool⟩
  cases pool with
  | nil => exact Or.inl rfl
  | cons a as => exact Or.inr ⟨a, List.mem_cons_self a as, rfl⟩

theorem runOps_threshold (ops : List PoolOp) :
    ∀ rs : RecordsPool, (runOps rs ops).threshold = rs.threshold := by
  induction ops with
  | nil => intro rs; rfl
  | cons op rest ih =>
    intro rs
    cases op with
    | get => rw [runOps, ih, get_threshold]
    | put r => rw [runOps, ih, put_threshold]

theorem runOps_recordBytes (ops : List PoolOp) :
    ∀ rs : RecordsPool, (runOps rs ops).recordBytes = rs.recordBytes := by
  induction ops with
  | nil => intro rs; rfl
  | cons op rest ih =>
    intro rs
    cases op with
    | get => rw [runOps, ih, get_recordBytes]
    | put r => rw [runOps, ih, put_recordBytes]

theorem runOps_inv (ops : List PoolOp) :
    ∀ rs : RecordsPool, (∀ p ∈ rs.pool, p.cap < rs.threshold) →
    ∀ p ∈ (runOps rs ops).pool, p.cap < (runOps rs ops).threshold := by
  induction ops with
  | nil => intro rs h; exact h
  | cons op rest ih =>
    intro rs h
    cases op with
    | get =>
      rw [runOps]
      apply ih
      rw [get_threshold]
      intro p hp
      exact h p (get_pool_subset rs p hp)
    | put r =>
      rw [runOps]
      apply ih
      rw [put_threshold]
      intro p hp
      unfold RecordsPool.put at hp
      by_cases hr : r.cap < rs.threshold
      · rw [if_pos hr] at hp
        rcases List.mem_cons.mp hp with h1 | h2
        · rw [h1]; exact hr
        · exact h p h2
      · rw [if_neg hr] at hp
        exact h p hp

/-- C8: records.Get always hands out a record whose buffer has length
zero (its capacity is retained); records.Put retains a record only when
its buffer capacity is strictly below recordBytes times recordFactor;
consequently, over any trace of pool operations from a fresh pool, every
retained record's capacity is strictly below that threshold, so an
acquire either serves a retained record of capacity below the threshold
or a fresh record of the configured starting capacity — a record whose
capacity has reached the threshold is never served back. -/
theorem records_pool_c8 :
    (∀ rs : RecordsPool, (rs.get).1.len = 0)
    ∧ (∀ (rs : RecordsPool) (r : PRec), rs.threshold ≤ r.cap → rs.put r = rs)
    ∧ (∀ (b f : Nat) (ops : List PoolOp) (p : PRec),
        p ∈ (runOps (createRecords b f) ops).pool → p.cap < b * f)
    ∧ (∀ (b f : Nat) (ops : List PoolOp),
        ((runOps (createRecords b f) ops).get).1.cap < b * f
        ∨ ((runOps (createRecords b f) ops).get).1.cap = b) := by
  have hmem : ∀ (b f : Nat) (ops : List PoolOp) (p : PRec),
      p ∈ (runOps (createRecords b f) ops).pool → p.cap < b * f := by
    intro b f ops p hp
    have := runOps_inv ops (createRecords b f)
      (by intro q hq; exact absurd hq (List.not_mem_nil q)) p hp
    rwa [runOps_threshold] at this
  refine ⟨?_, ?_, hmem, ?_⟩
  · intro rs
    rcases rs with ⟨b, th, pool⟩
    cases pool <;> rfl
  · intro rs r h
    unfold RecordsPool.put
    rw [if_neg (by omega)]
  · intro b f ops
    rcases get_cap_cases (runOps (createRecords b f) ops) with h | ⟨p, hp, hcap⟩
    · right
      rw [h, runOps_recordBytes]
      rfl
    · left
      rw [hcap]
      exact hmem b f ops p hp

/-- C8 witness: a pool with starting size 4 and factor 2 refuses to
retain a record of capacity 9, and after a trace that releases an
inflated record and acquires again, the served record has length zero
and capacity below the threshold 8. -/
theorem records_pool_c8_witness :
    RecordsPool.put (createRecords 4 2) { len := 3, cap := 9 } = createRecords 4 2
    ∧ ((runOps (createRecords 4 2)
          [PoolOp.put { len := 3, cap := 9 }, PoolOp.get]).get).1.len = 0
    ∧ (((runOps (createRecords 4 2)
          [PoolOp.put { len := 3, cap := 9 }, PoolOp.get]).get).1.cap < 4 * 2
        ∨ ((runOps (createRecords 4 2)
          [PoolOp.put { len := 3, cap := 9 }, PoolOp.get]).get).1.cap = 4) :=
  ⟨records_pool_c8.2.1 (createRecords 4 2) { len := 3, cap := 9 } (by decide),
   records_pool_c8.1 (runOps (createRecords 4 2)
      [PoolOp.put { len := 3, cap := 9 }, PoolOp.get]),
   records_pool_c8.2.2.2 4 2 [PoolOp.put { len := 3, cap := 9 }, PoolOp.get]⟩

theorem protectDaemon_done_iff (evts : List DEvent) :
    (protectDaemonRun evts).1 = IterExit.done ↔ closedBeforePanic evts = true := by
  induction evts with
  | nil => simp [protectDaemonRun, closedBeforePanic]
  | cons ev rest ih =>
    cases ev <;> simp [protectDaemonRun, closedBeforePanic, ih]

theorem protectDaemon_recovered_diag (evts : List DEvent) (m : String)
    (h : (protectDaemonRun evts).1 = IterExit.recovered m) :
    (protectDaemonRun evts).2 = ["daemon panic: " ++ m] := by
  induction evts with
  | nil => exact absurd h (by simp [protectDaemonRun])
  | cons ev rest ih =>
    cases ev with
    | recv => exact ih (by simpa [protectDaemonRun] using h)
    | tick => exact ih (by simpa [protectDaemonRun] using h)
    | closedQ => exact absurd h (by simp [protectDaemonRun])
    | panicEv msg =>
      simp only [protectDaemonRun] at h ⊢
      cases h
      rfl

/-- C9: the daemon loop returns exactly when an iteration observes the
closed discard queue (a receive on the closed channel, before any
panic); any panic during an iteration is caught by the recover, reported
on the side stream, followed by a daemon-error report, and the loop
restarts with the next iteration instead of dying. -/
theorem daemon_c9 (evts : List DEvent) (rest : List (List DEvent)) (m : String) :
    ((protectDaemonRun evts).1 = IterExit.done ↔ closedBeforePanic evts = true)
    ∧ ((protectDaemonRun evts).1 = IterExit.done →
        (daemonRun (evts :: rest)).1 = true)
    ∧ ((protectDaemonRun evts).1 = IterExit.recovered m →
        ("daemon panic: " ++ m) ∈ (daemonRun (evts :: rest)).2
        ∧ "daemon error: <nil>" ∈ (daemonRun (evts :: rest)).2
        ∧ (daemonRun (evts :: rest)).1 = (daemonRun rest).1) := by
  refine ⟨protectDaemon_done_iff evts, fun h => ?_, fun h => ?_⟩
  · simp [daemonRun, h]
  · have hd := protectDaemon_recovered_diag evts m h
    refine ⟨?_, ?_, ?_⟩ <;> simp [daemonRun, h, hd]

/-- C9 witness: an iteration that drains one record, flushes on a tick
and then sees the closed queue terminates the daemon, and a panicking
iteration is reported and leaves the daemon running into the next
iteration, which then terminates. -/
theorem daemon_c9_witness :
    (daemonRun [[DEvent.recv, DEvent.tick, DEvent.closedQ]]).1 = true
    ∧ ("daemon panic: " ++ "boom")
        ∈ (daemonRun [[DEvent.recv, DEvent.panicEv "boom"], [DEvent.closedQ]]).2
    ∧ (daemonRun [[DEvent.recv, DEvent.panicEv "boom"], [DEvent.closedQ]]).1
        = (daemonRun [[DEvent.closedQ]]).1 :=
  ⟨(daemon_c9 [DEvent.recv, DEvent.tick, DEvent.closedQ] [] "x").2.1 (by decide),
   ((daemon_c9 [DEvent.recv, DEvent.panicEv "boom"] [[DEvent.closedQ]] "boom").2.2
      (by decide)).1,
   ((daemon_c9 [DEvent.recv, DEvent.panicEv "boom"] [[DEvent.closedQ]] "boom").2.2
      (by decide)).2.2⟩

/-- C10: calling NewFileLogger with a nil configuration pointer panics on
the initial c.File read (it does not fall back to the defaults), every
mergeDefault call issued by NewFileLogger carries a non-nil pointer, so
the nil branch inside mergeDefault never runs through NewFileLogger,
while calling mergeDefault on a nil pointer directly does run it. -/
theorem new_file_logger_c10 :
    (∀ (openOk : String → Bool) (now : GoTime),
      NewFileLogger openOk now none = GoOutcome.panicked nilDerefMsg)
    ∧ (∀ cfg : FileConfig, (mergeDefault (some cfg)).2 = false)
    ∧ (mergeDefault none).2 = true :=
  ⟨fun _ _ => rfl, fun _ => rfl, rfl⟩

end LogModel
